import Mathlib

/-!
# ftp_HonneyPot: the connection handler, the event store write and the listeners

A shallow embedding of `main.go`.  The network, the clock and the SQLite
backend are the environment: every call the program makes to them is answered
by an oracle (`Env`, and the list of results `conn.Read` returns), and the
program's effects are threaded through an explicit `World`.

* `logEvent`          lines 104-116
* `handleConnection`  lines 70-102 (`handleConnectionLoop` is its `for` loop)
* `listenOnPort`      lines 51-68 (`acceptLoop` is its `for` loop)
* `createTables`      lines 118-130
* `main`              lines 15-49
-/

namespace Honeypot

/-! ## Data model -/

/-- A Go `string` / `[]byte`: an arbitrary sequence of bytes. -/
abbrev Bytes := List UInt8

/-- The bytes of a Go string literal (Go source is UTF-8). -/
def goBytes (s : String) : Bytes := s.toUTF8.data.toList

/-- One row of the table `events` (lines 120-125). -/
structure Event where
  id : Nat
  timestamp : Nat
  source_ip : String
  command : Bytes
deriving DecidableEq, Repr

/-- What one `conn.Read(buf)` returned: `data` is `buf[:n]` (so `n = data.length`),
`err` is the returned error (`none` is `nil`). -/
structure ReadResult where
  data : Bytes
  err : Option String
deriving DecidableEq, Repr

/-- The byte count `n` of a read. -/
def ReadResult.n (r : ReadResult) : Nat := r.data.length

/-- What `Read` on a TCP connection returns for the 1024-byte buffer of line 84
(the connections `handleConnection` is given come from `listener.Accept()` on a
`tcp` listener, lines 52, 61, 66): between 1 and 1024 bytes with a nil error,
or no byte together with an error; an orderly close by the peer is the error
`EOF`. -/
def ReadResult.tcp (r : ReadResult) : Prop :=
  (r.err = none ∧ 0 < r.n ∧ r.n ≤ 1024) ∨ (r.err ≠ none ∧ r.n = 0)

instance (r : ReadResult) : Decidable r.tcp := by
  unfold ReadResult.tcp
  infer_instance

/-- An accepted connection as the handler sees it: the remote address and the
results its successive `Read` calls return.  When the list is used up the next
`Read` has not returned (the handler is blocked in it). -/
structure Conn where
  remoteAddr : String
  reads : List ReadResult
deriving DecidableEq, Repr

/-- How the backend answers one `logEvent`: both calls succeed, `db.Prepare`
fails, or `stmt.Exec` fails. -/
inductive StoreOutcome where
  | ok
  | prepareFails (err : String)
  | execFails (err : String)
deriving DecidableEq, Repr

/-- The three call sites of `logEvent` in `handleConnection`:
line 77 (`opened`), line 91 (`payload`), line 87 (`closed`). -/
inductive Site where
  | opened
  | payload
  | closed
deriving DecidableEq, Repr

/-- An operation the handler performs, in program order. -/
inductive Effect where
  | record (site : Site) (sourceIP : String) (command : Bytes)
  | write (data : Bytes)
  | read (r : ReadResult)
  | close
deriving DecidableEq, Repr

/-- The environment's answers, indexed by call number: the outcome of the k-th
`logEvent`, the error of the k-th write to the connection (`none` is success),
and `time.Now()` at the k-th `logEvent`. -/
structure Env where
  store : Nat → StoreOutcome
  write : Nat → Option String
  clock : Nat → Nat

/-- The state the handler acts on: the rows of `events`, the operational log
(`honeypot.log`), the bytes delivered to the peer, the operations performed so
far, and the number of store calls and of writes made so far. -/
structure World where
  db : List Event
  oplog : List String
  peer : Bytes
  trace : List Effect
  storeCalls : Nat
  writeCalls : Nat
deriving DecidableEq, Repr

/-- The state at process start with an empty store. -/
def World.empty : World := ⟨[], [], [], [], 0, 0⟩

/-! ## `logEvent` (lines 104-116) -/

/-- `logEvent(db, sourceIP, command)`.  A failing `Prepare` logs and returns; a
failing `Exec` logs; otherwise one row is appended, with the next id and the
current time.  `site` only labels the call in the trace. -/
def logEvent (env : Env) (site : Site) (w : World) (sourceIP : String) (command : Bytes) : World :=
  let w1 := { w with trace := w.trace ++ [Effect.record site sourceIP command],
                     storeCalls := w.storeCalls + 1 }
  match env.store w.storeCalls with
  | StoreOutcome.prepareFails err =>
      { w1 with oplog := w1.oplog ++ ["Error preparing statement: " ++ err] }
  | StoreOutcome.execFails err =>
      { w1 with oplog := w1.oplog ++ ["Error logging event: " ++ err] }
  | StoreOutcome.ok =>
      { w1 with db := w1.db ++ [⟨w1.db.length + 1, env.clock w.storeCalls, sourceIP, command⟩] }

/-! ## `handleConnection` (lines 70-102) -/

/-- `fmt.Fprintln(conn, a)`: one write of `a` followed by a line feed.  Returns
the new state and the error of the write. -/
def Fprintln (env : Env) (w : World) (a : String) : World × Option String :=
  let line := goBytes a ++ goBytes "\n"
  let w1 := { w with trace := w.trace ++ [Effect.write line], writeCalls := w.writeCalls + 1 }
  match env.write w.writeCalls with
  | none => ({ w1 with peer := w1.peer ++ line }, none)
  | some err => (w1, some err)

/-- The `for` loop of lines 83-101 run on the results the successive reads
return.  The flag is `true` when the loop was left by `break`, `false` when
the next `Read` has not returned. -/
def handleConnectionLoop (env : Env) (sourceIP : String) : List ReadResult → World → World × Bool
  | [], w => (w, false)
  | r :: rest, w =>
    let w := { w with trace := w.trace ++ [Effect.read r] }
    match r.err with
    | some _ => (logEvent env Site.closed w sourceIP (goBytes "Connection closed"), true)
    | none =>
      let command := r.data
      let w := logEvent env Site.payload w sourceIP command
      let w :=
        if command = goBytes "USER anonymous\r\n" then
          (Fprintln env w "331 Please specify the password.").1
        else if command = goBytes "PASS password\r\n" then
          (Fprintln env w "230 Login successful.").1
        else
          (Fprintln env w "500 Unknown command.").1
      handleConnectionLoop env sourceIP rest w

/-- `handleConnection(conn, db)`.  The deferred `conn.Close()` runs when the
function returns, that is when the loop was left by `break`.  The flag tells
whether the handler returned. -/
def handleConnection (env : Env) (conn : Conn) (w : World) : World × Bool :=
  let sourceIP := conn.remoteAddr
  let w := logEvent env Site.opened w sourceIP (goBytes "Connection attempt")
  let w := (Fprintln env w "220 Welcome to the honeypot server").1
  let res := handleConnectionLoop env sourceIP conn.reads w
  if res.2 then ({ res.1 with trace := res.1.trace ++ [Effect.close] }, true) else (res.1, false)

/-! ## `listenOnPort` (lines 51-68) -/

/-- What one `listener.Accept()` returned. -/
inductive AcceptResult where
  | conn (c : Conn)
  | err (e : String)
deriving DecidableEq, Repr

/-- The state of one port listener: the lines it logged, the connections it
handed to `go handleConnection`, and whether `listenOnPort` has returned. -/
structure ListenerState where
  oplog : List String
  spawned : List Conn
  returned : Bool
deriving DecidableEq, Repr

/-- The `for` loop of lines 60-67 run on the results the successive `Accept`
calls return: an error is logged and the loop continues, a connection is handed
to a new handler.  The loop has no exit; when the list is used up the listener
is blocked in `Accept`. -/
def acceptLoop : List AcceptResult → ListenerState → ListenerState
  | [], s => s
  | AcceptResult.err e :: rest, s =>
      acceptLoop rest { s with oplog := s.oplog ++ ["Error accepting connection: " ++ e] }
  | AcceptResult.conn c :: rest, s =>
      acceptLoop rest { s with spawned := s.spawned ++ [c] }

/-- `listenOnPort(port, db)`; `listenErr` is the error of `net.Listen("tcp", port)`. -/
def listenOnPort (listenErr : Option String) (accepts : List AcceptResult) (port : String) :
    ListenerState :=
  match listenErr with
  | some err =>
      { oplog := ["Error listening on port " ++ port ++ ": " ++ err], spawned := [], returned := true }
  | none =>
      acceptLoop accepts
        { oplog := ["Honeypot listening on port " ++ port ++ "..."], spawned := [], returned := false }

/-! ## `createTables` and `main` (lines 15-49, 118-130) -/

/-- The errors of the three startup calls: `os.OpenFile`, `sql.Open` and the
`db.Exec` of `createTables` (`none` is success). -/
structure Startup where
  openLog : Option String
  openDB : Option String
  createTable : Option String
deriving DecidableEq, Repr

/-- The network as `main` meets it: the error of `net.Listen` for each port and
the results of the successive `Accept` calls on each port. -/
structure NetEnv where
  listen : String → Option String
  accepts : String → List AcceptResult

/-- How far the process got: it panicked, it exited through `log.Fatal`, or it
started its listeners and `main` sits in `wg.Wait()` (which returns once every
listener has returned). -/
inductive Process where
  | panicked (err : String)
  | fatal (err : String)
  | started (listeners : List (String × ListenerState))
deriving DecidableEq, Repr

/-- `createTables(db)`: a failing `db.Exec` ends the process through `log.Fatal`. -/
def createTables (st : Startup) : Except String Unit :=
  match st.createTable with
  | some err => Except.error err
  | none => Except.ok ()

/-- The configured ports (line 35). -/
def ports : List String := [":21", ":80"]

/-- `main()`: the three startup steps, then one goroutine running
`listenOnPort` for each configured port. -/
def main (st : Startup) (net : NetEnv) : Process :=
  match st.openLog with
  | some err => Process.panicked err
  | none =>
    match st.openDB with
    | some err => Process.fatal err
    | none =>
      match createTables st with
      | Except.error err => Process.fatal err
      | Except.ok _ =>
        Process.started (ports.map fun port => (port, listenOnPort (net.listen port) (net.accepts port) port))

/-- The connections among a list of `Accept` results, in order. -/
def acceptedConns : List AcceptResult → List Conn
  | [] => []
  | AcceptResult.conn c :: rest => c :: acceptedConns rest
  | AcceptResult.err _ :: rest => acceptedConns rest

/-- The lines logged for the failed `Accept` calls of a list, in order. -/
def acceptErrors : List AcceptResult → List String
  | [] => []
  | AcceptResult.conn _ :: rest => acceptErrors rest
  | AcceptResult.err e :: rest => ("Error accepting connection: " ++ e) :: acceptErrors rest

/-! ## Observations on a trace -/

/-- The calls to `logEvent` in a trace, in order. -/
def eventsOf : List Effect → List (Site × String × Bytes)
  | [] => []
  | Effect.record s ip c :: t => (s, ip, c) :: eventsOf t
  | _ :: t => eventsOf t

/-- The writes to the connection in a trace, in order. -/
def writesOf : List Effect → List Bytes
  | [] => []
  | Effect.write d :: t => d :: writesOf t
  | _ :: t => writesOf t

/-- The reads from the connection in a trace, in order. -/
def readsOf : List Effect → List ReadResult
  | [] => []
  | Effect.read r :: t => r :: readsOf t
  | _ :: t => readsOf t

/-- The reads of a connection that return without error before the first one
that returns an error. -/
def okReads (reads : List ReadResult) : List ReadResult :=
  reads.takeWhile fun r => r.err.isNone

/-- The first read that returns an error, if any. -/
def firstErr (reads : List ReadResult) : Option ReadResult :=
  reads.find? fun r => r.err.isSome

/-- The command table of the specification (section 4.2): the response line for
a received chunk. -/
def specResponse (chunk : Bytes) : String :=
  if chunk = goBytes "USER anonymous\r\n" then "331 Please specify the password."
  else if chunk = goBytes "PASS password\r\n" then "230 Login successful."
  else "500 Unknown command."

/-- A line as `Fprintln` writes it: the text and one line feed. -/
def lineOf (a : String) : Bytes := goBytes a ++ goBytes "\n"

/-- The operations of one loop iteration on a read that returned without error. -/
def iteration (sourceIP : String) (r : ReadResult) : List Effect :=
  [Effect.read r, Effect.record Site.payload sourceIP r.data, Effect.write (lineOf (specResponse r.data))]

/-- The operations that leave the loop, on a read that returned an error. -/
def closing (sourceIP : String) : Option ReadResult → List Effect
  | some e => [Effect.read e, Effect.record Site.closed sourceIP (goBytes "Connection closed")]
  | none => []

/-- The operations of one whole run of the handler on a connection. -/
def shape (sourceIP : String) (reads : List ReadResult) : List Effect :=
  [Effect.record Site.opened sourceIP (goBytes "Connection attempt"),
   Effect.write (lineOf "220 Welcome to the honeypot server")]
    ++ (okReads reads).flatMap (iteration sourceIP)
    ++ closing sourceIP (firstErr reads)
    ++ (if (firstErr reads).isSome then [Effect.close] else [])

/-- The operations `handleConnection` performs on `conn`, started in state `w`:
what it appends to the trace. -/
def session (env : Env) (conn : Conn) (w : World) : List Effect :=
  (handleConnection env conn w).1.trace.drop w.trace.length

/-- The source address and command of each stored row, in order of insertion. -/
def rowsOf (db : List Event) : List (String × Bytes) :=
  db.map fun ev => (ev.source_ip, ev.command)

/-- The number of payload events among the recorded events of a trace. -/
def payloadCount (t : List Effect) : Nat :=
  (eventsOf t).countP fun e => e.1 = Site.payload

/-- The number of closed events among the recorded events of a trace. -/
def closedCount (t : List Effect) : Nat :=
  (eventsOf t).countP fun e => e.1 = Site.closed

/-- Two states that agree on what the peer received and on the number of writes. -/
def SameNet (w v : World) : Prop := w.peer = v.peer ∧ w.writeCalls = v.writeCalls

/-- Two states that agree on the store, the operational log and the number of
store calls. -/
def SameStore (w v : World) : Prop :=
  w.db = v.db ∧ w.oplog = v.oplog ∧ w.storeCalls = v.storeCalls

/-! ## Concrete environments and connections -/

/-- An environment in which every store call and every write succeeds. -/
def Env.allOk : Env := ⟨fun _ => StoreOutcome.ok, fun _ => none, fun k => 1000 + k⟩

/-- An environment in which every write to the connection fails. -/
def Env.writesFail : Env := ⟨fun _ => StoreOutcome.ok, fun _ => some "broken pipe", fun k => 1000 + k⟩

/-- A connection that logs in anonymously and then closes. -/
def connLogin : Conn :=
  ⟨"203.0.113.7:40000",
    [⟨goBytes "USER anonymous\r\n", none⟩, ⟨goBytes "PASS password\r\n", none⟩, ⟨[], some "EOF"⟩]⟩

/-- A connection that sends the USER command and then closes. -/
def connUser : Conn :=
  ⟨"203.0.113.7:40000", [⟨goBytes "USER anonymous\r\n", none⟩, ⟨[], some "EOF"⟩]⟩

/-- A startup in which the log file, the database and the table are all fine. -/
def Startup.fine : Startup := ⟨none, none, none⟩

/-- A network in which port 21 cannot be bound and port 80 accepts a
connection, fails one `Accept`, and accepts another connection. -/
def netPort21Taken : NetEnv :=
  ⟨fun port => if port = ":21" then some "bind: address already in use" else none,
   fun port => if port = ":80" then
      [AcceptResult.conn connLogin, AcceptResult.err "too many open files",
       AcceptResult.conn connUser]
    else []⟩

/-! ## Basic facts -/

@[simp] theorem logEvent_trace (env : Env) (s : Site) (w : World) (ip : String) (c : Bytes) :
    (logEvent env s w ip c).trace = w.trace ++ [Effect.record s ip c] := by
  unfold logEvent
  cases env.store w.storeCalls <;> rfl

@[simp] theorem Fprintln_trace (env : Env) (w : World) (a : String) :
    (Fprintln env w a).1.trace = w.trace ++ [Effect.write (lineOf a)] := by
  unfold Fprintln lineOf
  cases env.write w.writeCalls <;> rfl

theorem loop_trace (env : Env) (ip : String) (reads : List ReadResult) (w : World) :
    (handleConnectionLoop env ip reads w).1.trace
      = w.trace ++ (okReads reads).flatMap (iteration ip) ++ closing ip (firstErr reads) := by
  induction reads generalizing w with
  | nil => simp [handleConnectionLoop, okReads, firstErr, closing]
  | cons r rest ih =>
    unfold handleConnectionLoop
    cases hr : r.err with
    | some e =>
      simp [okReads, firstErr, closing, hr, List.takeWhile, List.find?]
    | none =>
      simp only [ih]
      have h1 : okReads (r :: rest) = r :: okReads rest := by
        simp [okReads, List.takeWhile, hr]
      have h2 : firstErr (r :: rest) = firstErr rest := by
        simp [firstErr, List.find?, hr]
      rw [h1, h2]
      simp only [List.flatMap_cons, iteration, specResponse]
      split_ifs <;> simp

theorem loop_returned (env : Env) (ip : String) (reads : List ReadResult) (w : World) :
    (handleConnectionLoop env ip reads w).2 = (firstErr reads).isSome := by
  induction reads generalizing w with
  | nil => simp [handleConnectionLoop, firstErr]
  | cons r rest ih =>
    unfold handleConnectionLoop
    cases hr : r.err with
    | some e => simp [firstErr, List.find?, hr]
    | none =>
      simp only [ih]
      simp [firstErr, List.find?, hr]

theorem handleConnection_trace (env : Env) (conn : Conn) (w : World) :
    (handleConnection env conn w).1.trace = w.trace ++ shape conn.remoteAddr conn.reads := by
  unfold handleConnection
  simp only [loop_returned]
  cases h : (firstErr conn.reads).isSome <;>
    simp [loop_trace, shape, h, List.append_assoc]

theorem handleConnection_returned (env : Env) (conn : Conn) (w : World) :
    (handleConnection env conn w).2 = (firstErr conn.reads).isSome := by
  unfold handleConnection
  simp only [loop_returned]
  cases h : (firstErr conn.reads).isSome <;> simp

theorem session_eq (env : Env) (conn : Conn) (w : World) :
    session env conn w = shape conn.remoteAddr conn.reads := by
  simp [session, handleConnection_trace]

/-! ## The events, writes and reads of a run -/

theorem eventsOf_append (a b : List Effect) : eventsOf (a ++ b) = eventsOf a ++ eventsOf b := by
  induction a with
  | nil => rfl
  | cons x t ih => cases x <;> simp [eventsOf, ih]

theorem writesOf_append (a b : List Effect) : writesOf (a ++ b) = writesOf a ++ writesOf b := by
  induction a with
  | nil => rfl
  | cons x t ih => cases x <;> simp [writesOf, ih]

theorem readsOf_append (a b : List Effect) : readsOf (a ++ b) = readsOf a ++ readsOf b := by
  induction a with
  | nil => rfl
  | cons x t ih => cases x <;> simp [readsOf, ih]

theorem eventsOf_iterations (ip : String) (rs : List ReadResult) :
    eventsOf (rs.flatMap (iteration ip)) = rs.map fun r => (Site.payload, ip, r.data) := by
  induction rs with
  | nil => rfl
  | cons r t ih =>
    rw [List.flatMap_cons, eventsOf_append, ih]
    simp [iteration, eventsOf]

theorem writesOf_iterations (ip : String) (rs : List ReadResult) :
    writesOf (rs.flatMap (iteration ip)) = rs.map fun r => lineOf (specResponse r.data) := by
  induction rs with
  | nil => rfl
  | cons r t ih =>
    rw [List.flatMap_cons, writesOf_append, ih]
    simp [iteration, writesOf]

theorem readsOf_iterations (ip : String) (rs : List ReadResult) :
    readsOf (rs.flatMap (iteration ip)) = rs := by
  induction rs with
  | nil => rfl
  | cons r t ih =>
    rw [List.flatMap_cons, readsOf_append, ih]
    simp [iteration, readsOf]

theorem eventsOf_shape (ip : String) (reads : List ReadResult) :
    eventsOf (shape ip reads)
      = (Site.opened, ip, goBytes "Connection attempt")
          :: ((okReads reads).map (fun r => (Site.payload, ip, r.data))
              ++ (if (firstErr reads).isSome then [(Site.closed, ip, goBytes "Connection closed")]
                  else [])) := by
  unfold shape
  cases h : firstErr reads <;>
    simp [eventsOf_append, eventsOf_iterations, eventsOf, closing]

theorem writesOf_shape (ip : String) (reads : List ReadResult) :
    writesOf (shape ip reads)
      = lineOf "220 Welcome to the honeypot server"
          :: (okReads reads).map (fun r => lineOf (specResponse r.data)) := by
  unfold shape
  cases h : firstErr reads <;>
    simp [writesOf_append, writesOf_iterations, writesOf, closing]

theorem readsOf_shape (ip : String) (reads : List ReadResult) :
    readsOf (shape ip reads) = okReads reads ++ (firstErr reads).toList := by
  unfold shape
  cases h : firstErr reads <;>
    simp [readsOf_append, readsOf_iterations, readsOf, closing]

theorem okReads_ok (reads : List ReadResult) : ∀ r ∈ okReads reads, r.err.isNone = true := by
  intro r hr
  unfold okReads at hr
  have h := List.mem_takeWhile_imp hr
  simpa using h

theorem firstErr_err (reads : List ReadResult) (e : ReadResult) (h : firstErr reads = some e) :
    e.err.isSome = true := by
  have := List.find?_some h
  simpa using this

theorem okFilter_readsOf_shape (ip : String) (reads : List ReadResult) :
    (readsOf (shape ip reads)).filter (fun r => r.err.isNone) = okReads reads := by
  rw [readsOf_shape, List.filter_append]
  have h1 : (okReads reads).filter (fun r => r.err.isNone) = okReads reads :=
    List.filter_eq_self.mpr (okReads_ok reads)
  have h2 : ((firstErr reads).toList).filter (fun r => r.err.isNone) = [] := by
    cases h : firstErr reads with
    | none => rfl
    | some e =>
      have he := firstErr_err reads e h
      cases hx : e.err with
      | none => simp [hx] at he
      | some x => simp [Option.toList, List.filter, hx]
  rw [h1, h2, List.append_nil]

theorem closed_only_last (A B : List (Site × String × Bytes))
    (hA : ∀ a ∈ A, a.1 ≠ Site.closed) (hB : B.length ≤ 1) :
    ∀ pre e post, A ++ B = pre ++ e :: post → e.1 = Site.closed → post = [] := by
  induction A with
  | nil =>
    intro pre e post h he
    have hl := congrArg List.length h
    simp at hl
    have : post.length = 0 := by omega
    exact List.length_eq_zero.mp this
  | cons a t ih =>
    intro pre e post h he
    cases pre with
    | nil =>
      simp at h
      have := hA a (List.mem_cons_self a t)
      rw [h.1] at this
      exact absurd he this
    | cons p pre1 =>
      simp at h
      exact ih (fun x hx => hA x (List.mem_cons_of_mem a hx)) pre1 e post h.2 he

/-! ## What the store outcomes and the write outcomes can influence -/

@[simp] theorem logEvent_peer (env : Env) (s : Site) (w : World) (ip : String) (c : Bytes) :
    (logEvent env s w ip c).peer = w.peer := by
  unfold logEvent
  cases env.store w.storeCalls <;> rfl

@[simp] theorem logEvent_writeCalls (env : Env) (s : Site) (w : World) (ip : String) (c : Bytes) :
    (logEvent env s w ip c).writeCalls = w.writeCalls := by
  unfold logEvent
  cases env.store w.storeCalls <;> rfl

@[simp] theorem logEvent_storeCalls (env : Env) (s : Site) (w : World) (ip : String) (c : Bytes) :
    (logEvent env s w ip c).storeCalls = w.storeCalls + 1 := by
  unfold logEvent
  cases env.store w.storeCalls <;> rfl

@[simp] theorem Fprintln_db (env : Env) (w : World) (a : String) :
    (Fprintln env w a).1.db = w.db := by
  unfold Fprintln
  cases env.write w.writeCalls <;> rfl

@[simp] theorem Fprintln_oplog (env : Env) (w : World) (a : String) :
    (Fprintln env w a).1.oplog = w.oplog := by
  unfold Fprintln
  cases env.write w.writeCalls <;> rfl

@[simp] theorem Fprintln_storeCalls (env : Env) (w : World) (a : String) :
    (Fprintln env w a).1.storeCalls = w.storeCalls := by
  unfold Fprintln
  cases env.write w.writeCalls <;> rfl

@[simp] theorem Fprintln_writeCalls (env : Env) (w : World) (a : String) :
    (Fprintln env w a).1.writeCalls = w.writeCalls + 1 := by
  unfold Fprintln
  cases env.write w.writeCalls <;> rfl

theorem Fprintln_sameNet (env env2 : Env) (hw : env.write = env2.write) (w v : World)
    (h : SameNet w v) (a : String) : SameNet (Fprintln env w a).1 (Fprintln env2 v a).1 := by
  obtain ⟨h1, h2⟩ := h
  unfold SameNet Fprintln
  rw [hw, h2]
  cases env2.write v.writeCalls <;> simp [h1, h2]

theorem logEvent_sameStore (env env2 : Env) (hs : env.store = env2.store)
    (hc : env.clock = env2.clock) (w v : World) (h : SameStore w v) (s : Site) (ip : String)
    (c : Bytes) : SameStore (logEvent env s w ip c) (logEvent env2 s v ip c) := by
  obtain ⟨h1, h2, h3⟩ := h
  unfold SameStore logEvent
  rw [hs, hc, h3]
  cases env2.store v.storeCalls <;> simp [h1, h2, h3]

theorem loop_sameNet (env env2 : Env) (hw : env.write = env2.write) (ip : String)
    (reads : List ReadResult) :
    ∀ w v, SameNet w v →
      SameNet (handleConnectionLoop env ip reads w).1 (handleConnectionLoop env2 ip reads v).1 := by
  induction reads with
  | nil => intro w v h; simpa [handleConnectionLoop] using h
  | cons r rest ih =>
    intro w v h
    unfold handleConnectionLoop
    cases hr : r.err with
    | some e => simpa [SameNet] using h
    | none =>
      simp only
      apply ih
      have h0 : SameNet
          (logEvent env Site.payload { w with trace := w.trace ++ [Effect.read r] } ip r.data)
          (logEvent env2 Site.payload { v with trace := v.trace ++ [Effect.read r] } ip r.data) := by
        simpa [SameNet] using h
      split_ifs <;> exact Fprintln_sameNet env env2 hw _ _ h0 _

theorem loop_sameStore (env env2 : Env) (hs : env.store = env2.store)
    (hc : env.clock = env2.clock) (ip : String) (reads : List ReadResult) :
    ∀ w v, SameStore w v →
      SameStore (handleConnectionLoop env ip reads w).1 (handleConnectionLoop env2 ip reads v).1 := by
  induction reads with
  | nil => intro w v h; simpa [handleConnectionLoop] using h
  | cons r rest ih =>
    intro w v h
    have h0 : SameStore { w with trace := w.trace ++ [Effect.read r] }
        { v with trace := v.trace ++ [Effect.read r] } := h
    unfold handleConnectionLoop
    cases hr : r.err with
    | some e => exact logEvent_sameStore env env2 hs hc _ _ h0 _ _ _
    | none =>
      simp only
      apply ih
      have h1 := logEvent_sameStore env env2 hs hc _ _ h0 Site.payload ip r.data
      split_ifs <;> simpa [SameStore] using h1

theorem handleConnection_sameNet (env env2 : Env) (hw : env.write = env2.write) (conn : Conn)
    (w : World) : SameNet (handleConnection env conn w).1 (handleConnection env2 conn w).1 := by
  have h0 : SameNet
      (Fprintln env (logEvent env Site.opened w conn.remoteAddr (goBytes "Connection attempt"))
        "220 Welcome to the honeypot server").1
      (Fprintln env2 (logEvent env2 Site.opened w conn.remoteAddr (goBytes "Connection attempt"))
        "220 Welcome to the honeypot server").1 :=
    Fprintln_sameNet env env2 hw _ _ (by simp [SameNet]) _
  have h1 := loop_sameNet env env2 hw conn.remoteAddr conn.reads _ _ h0
  unfold handleConnection
  simp only [loop_returned]
  cases (firstErr conn.reads).isSome <;> simpa [SameNet] using h1

theorem handleConnection_sameStore (env env2 : Env) (hs : env.store = env2.store)
    (hc : env.clock = env2.clock) (conn : Conn) (w : World) :
    SameStore (handleConnection env conn w).1 (handleConnection env2 conn w).1 := by
  have h0 : SameStore
      (Fprintln env (logEvent env Site.opened w conn.remoteAddr (goBytes "Connection attempt"))
        "220 Welcome to the honeypot server").1
      (Fprintln env2 (logEvent env2 Site.opened w conn.remoteAddr (goBytes "Connection attempt"))
        "220 Welcome to the honeypot server").1 := by
    have := logEvent_sameStore env env2 hs hc w w ⟨rfl, rfl, rfl⟩ Site.opened conn.remoteAddr
      (goBytes "Connection attempt")
    simpa [SameStore] using this
  have h1 := loop_sameStore env env2 hs hc conn.remoteAddr conn.reads _ _ h0
  unfold handleConnection
  simp only [loop_returned]
  cases (firstErr conn.reads).isSome <;> simpa [SameStore] using h1

theorem okReads_all_ok (pre : List ReadResult) (h : ∀ r ∈ pre, r.err = none) :
    okReads pre = pre := by
  unfold okReads
  rw [List.takeWhile_eq_self_iff]
  intro r hr
  simp [h r hr]

theorem firstErr_all_ok (pre : List ReadResult) (h : ∀ r ∈ pre, r.err = none) :
    firstErr pre = none := by
  unfold firstErr
  rw [List.find?_eq_none]
  intro r hr
  simp [h r hr]

theorem okReads_split (pre : List ReadResult) (e : ReadResult) (post : List ReadResult)
    (h : ∀ r ∈ pre, r.err = none) (he : e.err ≠ none) :
    okReads (pre ++ e :: post) = pre := by
  induction pre with
  | nil =>
    cases hx : e.err with
    | none => exact absurd hx he
    | some x => simp [okReads, List.takeWhile, hx]
  | cons a t ih =>
    have ha : a.err = none := h a (List.mem_cons_self a t)
    have := ih (fun r hr => h r (List.mem_cons_of_mem a hr))
    unfold okReads at this ⊢
    simp [List.takeWhile, ha, this]

theorem firstErr_split (pre : List ReadResult) (e : ReadResult) (post : List ReadResult)
    (h : ∀ r ∈ pre, r.err = none) (he : e.err ≠ none) :
    firstErr (pre ++ e :: post) = some e := by
  induction pre with
  | nil =>
    cases hx : e.err with
    | none => exact absurd hx he
    | some x => simp [firstErr, List.find?, hx]
  | cons a t ih =>
    have ha : a.err = none := h a (List.mem_cons_self a t)
    have := ih (fun r hr => h r (List.mem_cons_of_mem a hr))
    unfold firstErr at this ⊢
    simp [List.find?, ha, this]

/-! ## The rows stored when the store does not fail -/

theorem logEvent_ok_db (wr : Nat → Option String) (clk : Nat → Nat) (s : Site) (w : World)
    (ip : String) (c : Bytes) :
    (logEvent ⟨fun _ => StoreOutcome.ok, wr, clk⟩ s w ip c).db
      = w.db ++ [⟨w.db.length + 1, clk w.storeCalls, ip, c⟩] := rfl

theorem loop_rows (wr : Nat → Option String) (clk : Nat → Nat) (ip : String)
    (reads : List ReadResult) :
    ∀ w, rowsOf (handleConnectionLoop ⟨fun _ => StoreOutcome.ok, wr, clk⟩ ip reads w).1.db
      = rowsOf w.db ++ ((okReads reads).map (fun r => (ip, r.data))
          ++ (if (firstErr reads).isSome then [(ip, goBytes "Connection closed")] else [])) := by
  induction reads with
  | nil => intro w; simp [handleConnectionLoop, okReads, firstErr]
  | cons r rest ih =>
    intro w
    unfold handleConnectionLoop
    cases hr : r.err with
    | some e =>
      simp [okReads, firstErr, List.takeWhile, List.find?, hr, logEvent_ok_db, rowsOf]
    | none =>
      simp only [ih]
      have h1 : okReads (r :: rest) = r :: okReads rest := by
        simp [okReads, List.takeWhile, hr]
      have h2 : firstErr (r :: rest) = firstErr rest := by
        simp [firstErr, List.find?, hr]
      rw [h1, h2]
      split_ifs <;> simp [logEvent_ok_db, rowsOf]

theorem handleConnection_rows (wr : Nat → Option String) (clk : Nat → Nat) (conn : Conn)
    (w : World) :
    rowsOf (handleConnection ⟨fun _ => StoreOutcome.ok, wr, clk⟩ conn w).1.db
      = rowsOf w.db ++ (eventsOf (shape conn.remoteAddr conn.reads)).map (fun e => e.2) := by
  rw [eventsOf_shape]
  unfold handleConnection
  simp only [loop_returned]
  have key := loop_rows wr clk conn.remoteAddr conn.reads
    (Fprintln ⟨fun _ => StoreOutcome.ok, wr, clk⟩
      (logEvent ⟨fun _ => StoreOutcome.ok, wr, clk⟩ Site.opened w conn.remoteAddr
        (goBytes "Connection attempt")) "220 Welcome to the honeypot server").1
  rw [Fprintln_db, logEvent_ok_db] at key
  cases h : (firstErr conn.reads).isSome
  all_goals
    simp only [h, Bool.false_eq_true, if_false, if_true] at key ⊢
    rw [key]
    simp [rowsOf, Function.comp_def]

/-! ## The claims about one session -/

/-- C1: the lines written to the peer in a session are the banner followed by
exactly one response line for each read that returned without error, in order,
and that line depends on the chunk alone, by exact byte equality: 331 for
USER anonymous CR LF, 230 for PASS password CR LF, 500 for every other chunk. -/
theorem C1_response_by_exact_match (env : Env) (conn : Conn) (w : World) :
    writesOf (session env conn w)
      = lineOf "220 Welcome to the honeypot server"
        :: ((readsOf (session env conn w)).filter (fun r => r.err.isNone)).map (fun r =>
            if r.data = goBytes "USER anonymous\r\n" then lineOf "331 Please specify the password."
            else if r.data = goBytes "PASS password\r\n" then lineOf "230 Login successful."
            else lineOf "500 Unknown command.") := by
  rw [session_eq, writesOf_shape, okFilter_readsOf_shape]
  congr 1
  apply List.map_congr_left
  intro r _
  unfold specResponse
  split_ifs <;> rfl

/-- C2: the events a session records start with the opened event
(Connection attempt, tagged with the remote address), no later event is an
opened event, so it is the only one and precedes every payload event, and a
closed event, when there is one, has no event after it; when the store calls
succeed, the rows added to the store are these events, in this order. -/
theorem C2_opened_first_closed_last (env : Env) (conn : Conn) (w : World) :
    ∃ rest, eventsOf (session env conn w)
        = (Site.opened, conn.remoteAddr, goBytes "Connection attempt") :: rest
      ∧ (∀ e ∈ rest, e.1 ≠ Site.opened)
      ∧ (∀ pre e post, eventsOf (session env conn w) = pre ++ e :: post →
          e.1 = Site.closed → post = [])
      ∧ rowsOf (handleConnection ⟨fun _ => StoreOutcome.ok, env.write, env.clock⟩ conn w).1.db
          = rowsOf w.db ++ (eventsOf (session env conn w)).map (fun e => e.2) := by
  rw [handleConnection_rows, session_eq, eventsOf_shape]
  refine ⟨_, rfl, ?_, ?_, rfl⟩
  · intro e he
    rw [List.mem_append] at he
    rcases he with he | he
    · rw [List.mem_map] at he
      obtain ⟨r, _, rfl⟩ := he
      simp
    · split_ifs at he
      · simp at he
        rw [he]
        simp
      · simp at he
  · intro pre e post h he
    have key := closed_only_last
      ((Site.opened, conn.remoteAddr, goBytes "Connection attempt")
        :: (okReads conn.reads).map (fun r => (Site.payload, conn.remoteAddr, r.data)))
      (if (firstErr conn.reads).isSome
        then [(Site.closed, conn.remoteAddr, goBytes "Connection closed")] else [])
      (by
        intro a ha
        rw [List.mem_cons] at ha
        rcases ha with ha | ha
        · rw [ha]; simp
        · rw [List.mem_map] at ha
          obtain ⟨r, _, rfl⟩ := ha
          simp)
      (by split_ifs <;> simp)
    exact key pre e post (by simpa using h) he

/-- The number of payload events of a session is the number of its reads that
returned a nil error. -/
theorem payloadCount_eq_ok_reads (env : Env) (conn : Conn) (w : World) :
    payloadCount (session env conn w)
      = (readsOf (session env conn w)).countP (fun r => r.err.isNone) := by
  rw [List.countP_eq_length_filter, session_eq, okFilter_readsOf_shape]
  unfold payloadCount
  rw [eventsOf_shape, List.countP_cons, List.countP_append]
  have h1 : ((okReads conn.reads).map (fun r => (Site.payload, conn.remoteAddr, r.data))).countP
      (fun e => e.1 = Site.payload) = (okReads conn.reads).length := by
    rw [List.countP_eq_length_filter, List.filter_eq_self.mpr, List.length_map]
    intro a ha
    rw [List.mem_map] at ha
    obtain ⟨r, _, rfl⟩ := ha
    simp
  rw [h1]
  cases h : (firstErr conn.reads).isSome <;> simp

/-- The reads a session performs are among the results of the connection. -/
theorem readsOf_session_mem (env : Env) (conn : Conn) (w : World) :
    ∀ r ∈ readsOf (session env conn w), r ∈ conn.reads := by
  intro r hr
  rw [session_eq, readsOf_shape, List.mem_append] at hr
  rcases hr with hr | hr
  · exact (List.takeWhile_sublist _).subset hr
  · cases h : firstErr conn.reads with
    | none => simp [h] at hr
    | some e =>
      simp [h] at hr
      rw [hr]
      exact List.mem_of_find?_eq_some h

/-- C3: on a TCP connection, whose reads return either some bytes and a nil
error or no byte and an error, the number of payload events a session records
equals the number of its reads that returned non-empty data; a read that
returned zero bytes is never counted. -/
theorem C3_payloads_count_nonempty_reads (env : Env) (conn : Conn) (w : World)
    (htcp : ∀ r ∈ conn.reads, r.tcp) :
    payloadCount (session env conn w)
      = (readsOf (session env conn w)).countP (fun r => 0 < r.n) := by
  rw [payloadCount_eq_ok_reads]
  apply List.countP_congr
  intro r hr
  have ht := htcp r (readsOf_session_mem env conn w r hr)
  unfold ReadResult.tcp at ht
  rcases ht with ⟨h1, h2, _⟩ | ⟨h1, h2⟩
  · simp [h1, h2]
  · cases hx : r.err with
    | none => exact absurd hx h1
    | some x => simp [h2]

/-- C3 at a concrete session: two chunks and then end of file give two payload
events. -/
theorem C3_payloads_count_nonempty_reads_witness :
    (∀ r ∈ connLogin.reads, r.tcp)
    ∧ payloadCount (session Env.allOk connLogin World.empty)
      = (readsOf (session Env.allOk connLogin World.empty)).countP (fun r => 0 < r.n) :=
  ⟨by decide, C3_payloads_count_nonempty_reads Env.allOk connLogin World.empty (by decide)⟩

/-- C4: for the reads USER anonymous CR LF, PASS password CR LF and then a
read error, the handler records exactly the four events opened, the two
chunks, closed, in that order and all with the remote address, writes exactly
the banner, the 331 line and the 230 line, each ended by one line feed, and
returns; when the store and the writes succeed, the four rows are what an
empty store then holds and the three lines are what the peer received. -/
theorem C4_login_scenario (env : Env) (addr : String) (d : Bytes) (e : String) (w : World) :
    eventsOf (session env
        ⟨addr, [⟨goBytes "USER anonymous\r\n", none⟩, ⟨goBytes "PASS password\r\n", none⟩, ⟨d, some e⟩]⟩ w)
      = [(Site.opened, addr, goBytes "Connection attempt"),
         (Site.payload, addr, goBytes "USER anonymous\r\n"),
         (Site.payload, addr, goBytes "PASS password\r\n"),
         (Site.closed, addr, goBytes "Connection closed")]
    ∧ writesOf (session env
        ⟨addr, [⟨goBytes "USER anonymous\r\n", none⟩, ⟨goBytes "PASS password\r\n", none⟩, ⟨d, some e⟩]⟩ w)
      = [goBytes "220 Welcome to the honeypot server\n",
         goBytes "331 Please specify the password.\n",
         goBytes "230 Login successful.\n"]
    ∧ (handleConnection env
        ⟨addr, [⟨goBytes "USER anonymous\r\n", none⟩, ⟨goBytes "PASS password\r\n", none⟩, ⟨d, some e⟩]⟩ w).2
      = true
    ∧ (handleConnection ⟨fun _ => StoreOutcome.ok, fun _ => none, env.clock⟩
        ⟨addr, [⟨goBytes "USER anonymous\r\n", none⟩, ⟨goBytes "PASS password\r\n", none⟩, ⟨d, some e⟩]⟩
        World.empty).1.db
      = [⟨1, env.clock 0, addr, goBytes "Connection attempt"⟩,
         ⟨2, env.clock 1, addr, goBytes "USER anonymous\r\n"⟩,
         ⟨3, env.clock 2, addr, goBytes "PASS password\r\n"⟩,
         ⟨4, env.clock 3, addr, goBytes "Connection closed"⟩]
    ∧ (handleConnection ⟨fun _ => StoreOutcome.ok, fun _ => none, env.clock⟩
        ⟨addr, [⟨goBytes "USER anonymous\r\n", none⟩, ⟨goBytes "PASS password\r\n", none⟩, ⟨d, some e⟩]⟩
        World.empty).1.peer
      = goBytes "220 Welcome to the honeypot server\n331 Please specify the password.\n230 Login successful.\n" := by
  refine ⟨?_, ?_, ?_, ?_, ?_⟩
  · rw [session_eq, eventsOf_shape]
    simp [okReads, firstErr, List.takeWhile, List.find?]
  · rw [session_eq, writesOf_shape]
    simp [okReads, firstErr, List.takeWhile, List.find?, specResponse]
    decide
  · rw [handleConnection_returned]
    simp [firstErr, List.find?]
  · have hne : goBytes "PASS password\r\n" ≠ goBytes "USER anonymous\r\n" := by decide
    simp [handleConnection, handleConnectionLoop, logEvent, Fprintln, World.empty, hne]
  · have hne : goBytes "PASS password\r\n" ≠ goBytes "USER anonymous\r\n" := by decide
    simp [handleConnection, handleConnectionLoop, logEvent, Fprintln, World.empty, hne]
    decide

/-- C5, as stated, fails: with every write failing, the banner write fails,
and the handler still reads, records the chunk, attempts the response write,
reads again, and only then, on the read error, records the closed event;
nothing reached the peer.  The session is not the one that closes right after
the failed banner write. -/
theorem C5_counterexample :
    Env.writesFail.write 0 = some "broken pipe"
    ∧ session Env.writesFail connUser World.empty
      = [Effect.record Site.opened "203.0.113.7:40000" (goBytes "Connection attempt"),
         Effect.write (goBytes "220 Welcome to the honeypot server\n"),
         Effect.read ⟨goBytes "USER anonymous\r\n", none⟩,
         Effect.record Site.payload "203.0.113.7:40000" (goBytes "USER anonymous\r\n"),
         Effect.write (goBytes "331 Please specify the password.\n"),
         Effect.read ⟨[], some "EOF"⟩,
         Effect.record Site.closed "203.0.113.7:40000" (goBytes "Connection closed"),
         Effect.close]
    ∧ (handleConnection Env.writesFail connUser World.empty).1.peer = []
    ∧ session Env.writesFail connUser World.empty
      ≠ [Effect.record Site.opened "203.0.113.7:40000" (goBytes "Connection attempt"),
         Effect.write (goBytes "220 Welcome to the honeypot server\n"),
         Effect.record Site.closed "203.0.113.7:40000" (goBytes "Connection closed"),
         Effect.close] := by
  decide

/-- C5, amended: a failed write does not end the session.  Whatever errors the
writes return, the handler performs the same operations, leaves the same store
and operational log, and returns in the same cases; it returns exactly when
some read returns an error. -/
theorem C5_write_errors_ignored (env : Env) (wr : Nat → Option String) (conn : Conn) (w : World) :
    session ⟨env.store, wr, env.clock⟩ conn w = session env conn w
    ∧ (handleConnection ⟨env.store, wr, env.clock⟩ conn w).1.db = (handleConnection env conn w).1.db
    ∧ (handleConnection ⟨env.store, wr, env.clock⟩ conn w).1.oplog
        = (handleConnection env conn w).1.oplog
    ∧ (handleConnection ⟨env.store, wr, env.clock⟩ conn w).2 = (handleConnection env conn w).2
    ∧ ((handleConnection env conn w).2 = true ↔ ∃ r ∈ conn.reads, r.err ≠ none) := by
  have hs := handleConnection_sameStore ⟨env.store, wr, env.clock⟩ env rfl rfl conn w
  refine ⟨?_, hs.1, hs.2.1, ?_, ?_⟩
  · rw [session_eq, session_eq]
  · rw [handleConnection_returned, handleConnection_returned]
  · rw [handleConnection_returned]
    unfold firstErr
    rw [List.find?_isSome]
    constructor
    · rintro ⟨r, hr, h⟩
      refine ⟨r, hr, ?_⟩
      intro hn
      simp [hn] at h
    · rintro ⟨r, hr, h⟩
      refine ⟨r, hr, ?_⟩
      cases hx : r.err with
      | none => exact absurd hx h
      | some x => simp

/-- C6: the store outcomes do not influence the exchange.  For any two
assignments of outcomes to the store calls the handler performs the same
sequence of reads, writes and record calls, delivers the same bytes to the
peer, and returns in the same cases; and a store call that fails at Prepare or
at Exec yields a state (the store unchanged, one line added to the operational
log) from which the session goes on. -/
theorem C6_store_failure_transparent (env : Env) (st st2 : Nat → StoreOutcome) (conn : Conn)
    (w : World) :
    session ⟨st, env.write, env.clock⟩ conn w = session ⟨st2, env.write, env.clock⟩ conn w
    ∧ (handleConnection ⟨st, env.write, env.clock⟩ conn w).1.peer
        = (handleConnection ⟨st2, env.write, env.clock⟩ conn w).1.peer
    ∧ (handleConnection ⟨st, env.write, env.clock⟩ conn w).2
        = (handleConnection ⟨st2, env.write, env.clock⟩ conn w).2
    ∧ (∀ err s ip c,
        (logEvent ⟨fun _ => StoreOutcome.prepareFails err, env.write, env.clock⟩ s w ip c)
          = ⟨w.db, w.oplog ++ ["Error preparing statement: " ++ err], w.peer,
              w.trace ++ [Effect.record s ip c], w.storeCalls + 1, w.writeCalls⟩)
    ∧ (∀ err s ip c,
        (logEvent ⟨fun _ => StoreOutcome.execFails err, env.write, env.clock⟩ s w ip c)
          = ⟨w.db, w.oplog ++ ["Error logging event: " ++ err], w.peer,
              w.trace ++ [Effect.record s ip c], w.storeCalls + 1, w.writeCalls⟩) := by
  have hn := handleConnection_sameNet ⟨st, env.write, env.clock⟩ ⟨st2, env.write, env.clock⟩ rfl
    conn w
  refine ⟨?_, hn.1, ?_, ?_, ?_⟩
  · rw [session_eq, session_eq]
  · rw [handleConnection_returned, handleConnection_returned]
  · intro err s ip c; rfl
  · intro err s ip c; rfl

/-- At the first read that returns an error the handler records the closed
event, closes the connection and returns; nothing else follows. -/
theorem closed_on_read_error (env : Env) (addr : String) (pre : List ReadResult)
    (e : ReadResult) (post : List ReadResult) (w : World)
    (hpre : ∀ r ∈ pre, r.err = none) (he : e.err ≠ none) :
    session env ⟨addr, pre ++ e :: post⟩ w
      = session env ⟨addr, pre⟩ w
          ++ [Effect.read e, Effect.record Site.closed addr (goBytes "Connection closed"),
              Effect.close]
    ∧ readsOf (session env ⟨addr, pre ++ e :: post⟩ w) = pre ++ [e]
    ∧ closedCount (session env ⟨addr, pre ++ e :: post⟩ w) = 1
    ∧ (handleConnection env ⟨addr, pre ++ e :: post⟩ w).2 = true := by
  have h1 := okReads_split pre e post hpre he
  have h2 := firstErr_split pre e post hpre he
  have h3 := okReads_all_ok pre hpre
  have h4 := firstErr_all_ok pre hpre
  refine ⟨?_, ?_, ?_, ?_⟩
  · rw [session_eq, session_eq]
    simp [shape, h1, h2, h3, h4, closing]
  · rw [session_eq, readsOf_shape]
    simp [h1, h2]
  · rw [session_eq]
    unfold closedCount
    rw [eventsOf_shape]
    simp [h1, h2, List.countP_cons, List.countP_append, List.countP_eq_zero]
  · rw [handleConnection_returned]
    simp [h2]

/-- C7: on a TCP connection, at the first read that fails or returns zero
bytes (the reads before it returned data and no error) the handler records the
closed event, closes the connection and returns: the session ends with that
read, the closed event and the close, the later read results are never asked
for, no write follows, and the session has exactly one closed event. -/
theorem C7_closed_at_first_failed_or_empty_read (env : Env) (addr : String)
    (pre : List ReadResult) (e : ReadResult) (post : List ReadResult) (w : World)
    (htcp : ∀ r ∈ pre ++ e :: post, r.tcp)
    (hpre : ∀ r ∈ pre, r.err = none ∧ 0 < r.n)
    (he : e.err ≠ none ∨ e.n = 0) :
    session env ⟨addr, pre ++ e :: post⟩ w
      = session env ⟨addr, pre⟩ w
          ++ [Effect.read e, Effect.record Site.closed addr (goBytes "Connection closed"),
              Effect.close]
    ∧ readsOf (session env ⟨addr, pre ++ e :: post⟩ w) = pre ++ [e]
    ∧ writesOf (session env ⟨addr, pre ++ e :: post⟩ w) = writesOf (session env ⟨addr, pre⟩ w)
    ∧ closedCount (session env ⟨addr, pre ++ e :: post⟩ w) = 1
    ∧ (handleConnection env ⟨addr, pre ++ e :: post⟩ w).2 = true := by
  have hte : e.tcp := htcp e (by simp)
  have he2 : e.err ≠ none := by
    unfold ReadResult.tcp at hte
    rcases hte with ⟨_, h2, _⟩ | ⟨h1, _⟩
    · rcases he with he | he
      · exact he
      · omega
    · exact h1
  have key := closed_on_read_error env addr pre e post w (fun r hr => (hpre r hr).1) he2
  refine ⟨key.1, key.2.1, ?_, key.2.2.1, key.2.2.2⟩
  rw [key.1, writesOf_append]
  simp [writesOf]

/-- C7 at a concrete session: one chunk, then end of file (zero bytes and the
error EOF), then a result that is never read. -/
theorem C7_closed_at_first_failed_or_empty_read_witness :
    (∀ r ∈ [(⟨goBytes "USER anonymous\r\n", none⟩ : ReadResult)] ++ ⟨[], some "EOF"⟩
        :: [⟨goBytes "late", none⟩], r.tcp)
    ∧ (∀ r ∈ [(⟨goBytes "USER anonymous\r\n", none⟩ : ReadResult)], r.err = none ∧ 0 < r.n)
    ∧ ((⟨[], some "EOF"⟩ : ReadResult).err ≠ none ∨ (⟨[], some "EOF"⟩ : ReadResult).n = 0)
    ∧ (session Env.allOk
          ⟨"203.0.113.7:40000",
            [⟨goBytes "USER anonymous\r\n", none⟩] ++ ⟨[], some "EOF"⟩ :: [⟨goBytes "late", none⟩]⟩
          World.empty
        = session Env.allOk ⟨"203.0.113.7:40000", [⟨goBytes "USER anonymous\r\n", none⟩]⟩
            World.empty
          ++ [Effect.read ⟨[], some "EOF"⟩,
              Effect.record Site.closed "203.0.113.7:40000" (goBytes "Connection closed"),
              Effect.close]
      ∧ readsOf (session Env.allOk
          ⟨"203.0.113.7:40000",
            [⟨goBytes "USER anonymous\r\n", none⟩] ++ ⟨[], some "EOF"⟩ :: [⟨goBytes "late", none⟩]⟩
          World.empty)
        = [⟨goBytes "USER anonymous\r\n", none⟩] ++ [⟨[], some "EOF"⟩]
      ∧ writesOf (session Env.allOk
          ⟨"203.0.113.7:40000",
            [⟨goBytes "USER anonymous\r\n", none⟩] ++ ⟨[], some "EOF"⟩ :: [⟨goBytes "late", none⟩]⟩
          World.empty)
        = writesOf (session Env.allOk
            ⟨"203.0.113.7:40000", [⟨goBytes "USER anonymous\r\n", none⟩]⟩ World.empty)
      ∧ closedCount (session Env.allOk
          ⟨"203.0.113.7:40000",
            [⟨goBytes "USER anonymous\r\n", none⟩] ++ ⟨[], some "EOF"⟩ :: [⟨goBytes "late", none⟩]⟩
          World.empty) = 1
      ∧ (handleConnection Env.allOk
          ⟨"203.0.113.7:40000",
            [⟨goBytes "USER anonymous\r\n", none⟩] ++ ⟨[], some "EOF"⟩ :: [⟨goBytes "late", none⟩]⟩
          World.empty).2 = true) :=
  ⟨by decide, by decide, by decide,
    C7_closed_at_first_failed_or_empty_read Env.allOk "203.0.113.7:40000"
      [⟨goBytes "USER anonymous\r\n", none⟩] ⟨[], some "EOF"⟩ [⟨goBytes "late", none⟩] World.empty
      (by decide) (by decide) (by decide)⟩

/-! ## The listeners -/

theorem acceptLoop_eq (accepts : List AcceptResult) (s : ListenerState) :
    acceptLoop accepts s
      = ⟨s.oplog ++ acceptErrors accepts, s.spawned ++ acceptedConns accepts, s.returned⟩ := by
  induction accepts generalizing s with
  | nil => simp [acceptLoop, acceptErrors, acceptedConns]
  | cons a rest ih =>
    cases a with
    | conn c => simp [acceptLoop, acceptErrors, acceptedConns, ih]
    | err e => simp [acceptLoop, acceptErrors, acceptedConns, ih]

/-- C8: once startup has succeeded, `main` starts one listener for each of the
two configured ports whatever the bind outcomes, and never panics or exits
through a fatal error because of them; a listener whose bind fails logs one
line, hands out no connection and returns; a listener whose bind succeeds
does not return and hands every accepted connection to a handler, logging the
failed accepts, and what it does depends on its own port alone. -/
theorem C8_bind_failure_isolated (st : Startup) (net : NetEnv)
    (h1 : st.openLog = none) (h2 : st.openDB = none) (h3 : st.createTable = none) :
    main st net
      = Process.started
          [(":21", listenOnPort (net.listen ":21") (net.accepts ":21") ":21"),
           (":80", listenOnPort (net.listen ":80") (net.accepts ":80") ":80")]
    ∧ (∀ err accepts port,
        listenOnPort (some err) accepts port
          = ⟨["Error listening on port " ++ port ++ ": " ++ err], [], true⟩)
    ∧ (∀ accepts port,
        listenOnPort none accepts port
          = ⟨("Honeypot listening on port " ++ port ++ "...") :: acceptErrors accepts,
              acceptedConns accepts, false⟩) := by
  refine ⟨?_, ?_, ?_⟩
  · simp [main, createTables, h1, h2, h3, ports]
  · intro err accepts port; rfl
  · intro accepts port
    simp [listenOnPort, acceptLoop_eq]

/-- C8 at a concrete network: port 21 is taken, port 80 is served. -/
theorem C8_bind_failure_isolated_witness :
    Startup.fine.openLog = none ∧ Startup.fine.openDB = none ∧ Startup.fine.createTable = none
    ∧ main Startup.fine netPort21Taken
      = Process.started
          [(":21", ⟨["Error listening on port :21: bind: address already in use"], [], true⟩),
           (":80", ⟨["Honeypot listening on port :80...", "Error accepting connection: too many open files"],
                    [connLogin, connUser], false⟩)] :=
  ⟨rfl, rfl, rfl,
    (C8_bind_failure_isolated Startup.fine netPort21Taken rfl rfl rfl).1.trans (by decide)⟩

/-! ## Marker events and payload events -/

/-- C10: a chunk that is exactly the text Connection closed is recorded as a
payload event with the same source address and the same command as the closed
event of the session, is answered 500, and the session reads on; the two
stored rows differ in id and timestamp only.  The same holds for the text
Connection attempt and the opened event. -/
theorem C10_marker_text_as_payload (env : Env) (addr : String) (d : Bytes) (e : String)
    (w : World) :
    session env ⟨addr, [⟨goBytes "Connection closed", none⟩, ⟨d, some e⟩]⟩ w
      = [Effect.record Site.opened addr (goBytes "Connection attempt"),
         Effect.write (goBytes "220 Welcome to the honeypot server\n"),
         Effect.read ⟨goBytes "Connection closed", none⟩,
         Effect.record Site.payload addr (goBytes "Connection closed"),
         Effect.write (goBytes "500 Unknown command.\n"),
         Effect.read ⟨d, some e⟩,
         Effect.record Site.closed addr (goBytes "Connection closed"),
         Effect.close]
    ∧ (handleConnection ⟨fun _ => StoreOutcome.ok, env.write, env.clock⟩
        ⟨addr, [⟨goBytes "Connection closed", none⟩, ⟨d, some e⟩]⟩ World.empty).1.db
      = [⟨1, env.clock 0, addr, goBytes "Connection attempt"⟩,
         ⟨2, env.clock 1, addr, goBytes "Connection closed"⟩,
         ⟨3, env.clock 2, addr, goBytes "Connection closed"⟩]
    ∧ session env ⟨addr, [⟨goBytes "Connection attempt", none⟩, ⟨d, some e⟩]⟩ w
      = [Effect.record Site.opened addr (goBytes "Connection attempt"),
         Effect.write (goBytes "220 Welcome to the honeypot server\n"),
         Effect.read ⟨goBytes "Connection attempt", none⟩,
         Effect.record Site.payload addr (goBytes "Connection attempt"),
         Effect.write (goBytes "500 Unknown command.\n"),
         Effect.read ⟨d, some e⟩,
         Effect.record Site.closed addr (goBytes "Connection closed"),
         Effect.close]
    ∧ (handleConnection ⟨fun _ => StoreOutcome.ok, env.write, env.clock⟩
        ⟨addr, [⟨goBytes "Connection attempt", none⟩, ⟨d, some e⟩]⟩ World.empty).1.db
      = [⟨1, env.clock 0, addr, goBytes "Connection attempt"⟩,
         ⟨2, env.clock 1, addr, goBytes "Connection attempt"⟩,
         ⟨3, env.clock 2, addr, goBytes "Connection closed"⟩] := by
  have c1 : goBytes "Connection closed" ≠ goBytes "USER anonymous\r\n" := by decide
  have c2 : goBytes "Connection closed" ≠ goBytes "PASS password\r\n" := by decide
  have a1 : goBytes "Connection attempt" ≠ goBytes "USER anonymous\r\n" := by decide
  have a2 : goBytes "Connection attempt" ≠ goBytes "PASS password\r\n" := by decide
  have l1 : lineOf "220 Welcome to the honeypot server"
      = goBytes "220 Welcome to the honeypot server\n" := by decide
  have l2 : lineOf "500 Unknown command." = goBytes "500 Unknown command.\n" := by decide
  have hs := fun (x : Bytes) => handleConnection_sameStore
    ⟨fun _ => StoreOutcome.ok, env.write, env.clock⟩ ⟨fun _ => StoreOutcome.ok, fun _ => none, env.clock⟩
    rfl rfl ⟨addr, [⟨x, none⟩, ⟨d, some e⟩]⟩ World.empty
  refine ⟨?_, ?_, ?_, ?_⟩
  · rw [session_eq]
    simp [shape, okReads, firstErr, List.takeWhile, List.find?, iteration, closing, specResponse,
      c1, c2, l1, l2]
  · rw [(hs _).1]
    simp [handleConnection, handleConnectionLoop, logEvent, Fprintln, World.empty, c1, c2]
  · rw [session_eq]
    simp [shape, okReads, firstErr, List.takeWhile, List.find?, iteration, closing, specResponse,
      a1, a2, l1, l2]
  · rw [(hs _).1]
    simp [handleConnection, handleConnectionLoop, logEvent, Fprintln, World.empty, a1, a2]

end Honeypot
